import Mathlib

/-!
# SafeAI frontend — session state model, verified

Shallow embedding of the client-side session state model of the SafeAI
dashboard (AdvHumanity/safeai-frontend).  Three source variants exist:

* `src/unnamed/part_001` — the variant with locally maintained aggregate
  statistics (`totalAnalyses`, `threatsDetected`, `avgRiskScore`), a local
  bounded history, and the `getSafetyLevel` presentation mapper.  Numbers
  are modelled as rationals; JS `??` defaulting as `Option.getD`.
* `src/src/App.tsx` — the variant whose stats come from the server, with
  `getRiskBadge` and an alerting empty-input guard in `analyzeText`.
* `src/unnamed/part_000` — the tiered variant; its history update
  `setHistory(prev => [data, ...prev].slice(0, 5))` is modelled as
  `pushHistory000`.

All state transitions are pure functions of the pre-state plus an explicit
fetch outcome (network error, HTTP error status, JSON parse failure, a
`null` body, or a parsed response object with optional fields).
-/

namespace SafeAI

/-- `getSafetyLevel` return type in part_001: `"LOW" | "MEDIUM" | "HIGH"`. -/
inductive SafetyLevel where
  | LOW
  | MEDIUM
  | HIGH
deriving DecidableEq

/-- part_001 lines 10–14:
`if (score < 20) return "LOW"; if (score < 60) return "MEDIUM"; return "HIGH";` -/
def getSafetyLevel (score : ℚ) : SafetyLevel :=
  if score < 20 then .LOW
  else if score < 60 then .MEDIUM
  else .HIGH

/-- Return shape of `getRiskBadge` in src/src/App.tsx. -/
structure RiskBadge where
  color : String
  label : String
deriving DecidableEq

/-- src/src/App.tsx lines 153–158: four badge categories with thresholds
30 / 60 / 80. -/
def getRiskBadge (score : ℚ) : RiskBadge :=
  if score < 30 then { color := "bg-green-100 text-green-800", label := "LOW RISK" }
  else if score < 60 then { color := "bg-yellow-100 text-yellow-800", label := "MEDIUM RISK" }
  else if score < 80 then { color := "bg-orange-100 text-orange-800", label := "HIGH RISK" }
  else { color := "bg-red-100 text-red-800", label := "CRITICAL RISK" }

/-- One threat record, as in the `ThreatDetail` interface. -/
structure Threat where
  category : String
  severity : String
  confidence : ℚ
  description : String
deriving DecidableEq

/-- The JSON value a successful `res.json()` produces in part_001, with each
field the code reads held optionally (JS `data.x ?? fallback`).
`threats` is `some` exactly when `Array.isArray(data.threats)` holds. -/
structure RespData where
  id : Option String
  created_at : Option String
  text : Option String
  risk_score : Option ℚ
  is_safe : Option Bool
  threats : Option (List Threat)
  threats_detected : Option Nat
  safe_pct : Option ℚ
deriving DecidableEq

/-- A history row built in part_001 lines 95–101. -/
structure HistEntry where
  id : String
  created_at : String
  text : String
  risk_score : ℚ
  is_safe : Bool
deriving DecidableEq

/-- The React state of the part_001 `App` component (lines 40–50). -/
structure AppState where
  input : String
  isAnalyzing : Bool
  error : Option String
  totalAnalyses : Nat
  threatsDetected : Nat
  avgRiskScore : ℚ
  latestResult : Option RespData
  history : List HistEntry
deriving DecidableEq

/-- part_001 initial state: `useState("")`, `useState(false)`, `useState(null)`,
`useState(0)`, `useState(0)`, `useState(0)`, `useState(null)`, `useState([])`. -/
def initialState : AppState :=
  { input := ""
    isAnalyzing := false
    error := none
    totalAnalyses := 0
    threatsDetected := 0
    avgRiskScore := 0
    latestResult := none
    history := [] }

/-- JS `text.trim()`: strip leading and trailing whitespace.  Stated
structurally on the character list so that it reduces in the kernel. -/
def jsTrim (s : String) : String :=
  String.mk (((s.data.dropWhile Char.isWhitespace).reverse.dropWhile
    Char.isWhitespace).reverse)

/-- JS `String(n).padStart(6, "0")` used for the synthesized history id. -/
def padSix (n : Nat) : String :=
  let s := toString n
  String.mk (List.replicate (6 - s.length) '0') ++ s

/-- How one call to `analyze` can resolve: the `fetch` promise rejects,
`res.ok` is false, `res.json()` rejects, the body parses to `null`
(the later `data.risk_score` access then throws a TypeError), or the body
parses to an object. -/
inductive FetchOutcome where
  | netErr (msg : String)
  | httpErr (status : Nat)
  | parseErr (msg : String)
  | okNull
  | ok (data : RespData)
deriving DecidableEq

/-- Every outcome that ends in the `catch` block of `analyze`. -/
def FetchOutcome.isFailure : FetchOutcome → Bool
  | .ok _ => false
  | _ => true

/-- Result of one `analyze` call: the post-state plus whether an outbound
`fetch` was issued. -/
structure AnalyzeOut where
  state : AppState
  requestIssued : Bool
deriving DecidableEq

/-- part_001 lines 58–112, the `analyze` handler, as a pure transition.
`now` stands for `new Date().toISOString()`.  The guard
`if (!input.trim()) return;` issues no request and changes nothing.
Otherwise `setIsAnalyzing(true); setError(null)` run, the fetch is issued,
and the outcome decides the rest; `finally` clears `isAnalyzing`. -/
def analyzeRun (st : AppState) (now : String) (outcome : FetchOutcome) : AnalyzeOut :=
  if jsTrim st.input = "" then ⟨st, false⟩
  else
    let st1 : AppState := { st with isAnalyzing := true, error := none }
    match outcome with
    | .netErr msg =>
        ⟨{ st1 with
            isAnalyzing := false,
            error := some (if msg = "" then "Something went wrong while analyzing." else msg) },
         true⟩
    | .httpErr status =>
        ⟨{ st1 with
            isAnalyzing := false,
            error := some ("API responded with " ++ toString status) }, true⟩
    | .parseErr msg =>
        ⟨{ st1 with
            isAnalyzing := false,
            error := some (if msg = "" then "Something went wrong while analyzing." else msg) },
         true⟩
    | .okNull =>
        ⟨{ st1 with
            isAnalyzing := false,
            latestResult := none,
            error := some "Cannot read properties of null (reading risk_score)" }, true⟩
    | .ok data =>
        let risk : ℚ := data.risk_score.getD 0
        let threatsCount : Nat :=
          match data.threats with
          | some ts => ts.length
          | none => data.threats_detected.getD 0
        let entry : HistEntry :=
          { id := data.id.getD ("SA-" ++ padSix (st.history.length + 1)),
            created_at := data.created_at.getD now,
            text := data.text.getD st.input,
            risk_score := risk,
            is_safe := data.is_safe.getD (decide (risk < 20)) }
        ⟨{ st1 with
            isAnalyzing := false,
            latestResult := some data,
            totalAnalyses := st.totalAnalyses + 1,
            threatsDetected := st.threatsDetected + threatsCount,
            avgRiskScore :=
              if st.totalAnalyses = 0 then risk
              else (st.avgRiskScore * st.totalAnalyses + risk) / (st.totalAnalyses + 1),
            history := (entry :: st.history).take 5 }, true⟩

/-- The post-state of one `analyze` call. -/
def analyze (st : AppState) (now : String) (outcome : FetchOutcome) : AppState :=
  (analyzeRun st now outcome).state

/-- part_001 line 205: `disabled={isAnalyzing || !input.trim()}` on the
analyze button. -/
def analyzeButtonDisabled (st : AppState) : Bool :=
  st.isAnalyzing || jsTrim st.input == ""

/-- A user click on the analyze button: the browser fires `onClick={analyze}`
only when the button is not disabled. -/
def clickAnalyze (st : AppState) (now : String) (outcome : FetchOutcome) : AnalyzeOut :=
  if analyzeButtonDisabled st then ⟨st, false⟩
  else analyzeRun st now outcome

/-- part_001 lines 114–120:
`latestResult?.safe_pct ?? (latestResult ? (latestResult.is_safe ? 100 : 0) : 100)`. -/
def safePct (st : AppState) : ℚ :=
  match st.latestResult with
  | none => 100
  | some r => r.safe_pct.getD (if r.is_safe.getD false then 100 else 0)

/-- part_001 line 121: `100 - safePct`. -/
def unsafePct (st : AppState) : ℚ := 100 - safePct st

/-- part_001 line 123: `latestResult?.risk_score ?? 0`. -/
def displayedRiskScore (st : AppState) : ℚ :=
  match st.latestResult with
  | none => 0
  | some r => r.risk_score.getD 0

/-- Fold a sequence of calls to `analyze`, one fetch outcome each. -/
def runOutcomes (st : AppState) (now : String) (os : List FetchOutcome) : AppState :=
  os.foldl (fun s o => analyze s now o) st

/-- Fold a sequence of successful submissions. -/
def runOk (st : AppState) (now : String) (ds : List RespData) : AppState :=
  ds.foldl (fun s d => analyze s now (.ok d)) st

/-- A minimal successful response carrying only a risk score. -/
def mkResp (r : ℚ) : RespData :=
  { id := none, created_at := none, text := none, risk_score := some r
    is_safe := none, threats := none, threats_detected := none, safe_pct := none }

/-- The risk score the code extracts from a parsed response:
`data.risk_score ?? 0`. -/
def respRisk (d : RespData) : ℚ := d.risk_score.getD 0

/-- Initial state with a nonempty input typed in, the precondition for the
trim guard to pass. -/
def st0 : AppState := { initialState with input := "test" }

/-! ## src/src/App.tsx: server-driven stats variant -/

/-- The `Stats` interface of src/src/App.tsx (lines 34–43). -/
structure TsxStats where
  total_analyses : Nat
  threats_detected : Nat
  average_risk_score : ℚ
  safe_percentage : ℚ
  threat_breakdown : List (String × Nat)
  uptime_hours : ℚ
deriving DecidableEq

/-- src/src/App.tsx lines 49–56: the initial `useState<Stats>` value. -/
def initialTsxStats : TsxStats :=
  { total_analyses := 0,
    threats_detected := 0,
    average_risk_score := 0,
    safe_percentage := 100,
    threat_breakdown := [],
    uptime_hours := 0 }

/-- The `AnalysisResult` interface of src/src/App.tsx (lines 23–32). -/
structure TsxResult where
  id : String
  text : String
  is_safe : Bool
  risk_score : ℚ
  threats : List Threat
  timestamp : String
  processing_time_ms : Nat
  recommendations : List String
deriving DecidableEq

/-- The React state of the src/src/App.tsx `App` component that
`analyzeText` touches. -/
structure TsxState where
  inputText : String
  analyzing : Bool
  result : Option TsxResult
  stats : TsxStats
  history : List TsxResult
deriving DecidableEq

/-- User-visible side effects issued by `analyzeText`. -/
inductive UiEffect where
  | alert (msg : String)
  | request (text : String)
deriving DecidableEq

/-- How the `axios.post` of `analyzeText` can resolve: an error with an
optional `response.data.detail`, or a success together with the fresh
`/stats` and `/history` payloads the follow-up fetches bring back. -/
inductive TsxOutcome where
  | err (detail : Option String)
  | ok (r : TsxResult) (newStats : TsxStats) (newHistory : List TsxResult)
deriving DecidableEq

/-- src/src/App.tsx lines 94–115, the `analyzeText` handler, as a pure
transition returning the post-state plus the emitted UI effects in order.
The guard `if (!inputText.trim()) { alert(...); return; }` shows a dialog
and stops before any request or state change. -/
def analyzeText (st : TsxState) (outcome : TsxOutcome) : TsxState × List UiEffect :=
  if jsTrim st.inputText = "" then
    (st, [.alert "Please enter some text to analyze"])
  else
    match outcome with
    | .err detail =>
        ({ st with analyzing := false },
         [.request st.inputText,
          .alert (detail.getD "Error analyzing text. Make sure backend is running.")])
    | .ok r ns nh =>
        ({ st with
            analyzing := false,
            result := some r,
            stats := ns,
            history := nh },
         [.request st.inputText])

/-! ## src/unnamed/part_000: tiered variant, history push -/

/-- The `ProctoringScan` interface of part_000 (lines 17–26). -/
structure ProctoringScan where
  scan_id : String
  threats_found : List Threat
  risk_score : ℚ
  recommended_action : String
  auto_remediation_applied : Bool
  needs_superior_review : Bool
  scan_time_ms : Nat
deriving DecidableEq

/-- The `AnalysisResult` interface of part_000 (lines 39–51), the fields the
history rendering reads. -/
structure AnalysisResult000 where
  analysis_id : String
  original_text : String
  proctoring_scan : ProctoringScan
  final_action : String
  is_safe : Bool
  processing_tier : String
  total_processing_ms : Nat
  timestamp : String
deriving DecidableEq

/-- part_000 line 115: `setHistory(prev => [data, ...prev].slice(0, 5))`. -/
def pushHistory000 (prev : List AnalysisResult000) (data : AnalysisResult000) :
    List AnalysisResult000 :=
  (data :: prev).take 5

/-- The part_000 history after a sequence of successful analyses, starting
from the initial `useState<AnalysisResult[]>([])`. -/
def runHistory000 (ds : List AnalysisResult000) : List AnalysisResult000 :=
  ds.foldl pushHistory000 []

/-- The history row `analyze` builds from a parsed response (part_001
lines 95–101), named for reuse in statements. -/
def mkEntry (st : AppState) (now : String) (d : RespData) : HistEntry :=
  { id := d.id.getD ("SA-" ++ padSix (st.history.length + 1)),
    created_at := d.created_at.getD now,
    text := d.text.getD st.input,
    risk_score := respRisk d,
    is_safe := d.is_safe.getD (decide (respRisk d < 20)) }

/-- Safe entries currently retained in the part_001 history. -/
def historySafeCount (st : AppState) : Nat :=
  (st.history.filter (fun e => e.is_safe)).length

/-- Unsafe entries currently retained in the part_001 history. -/
def historyUnsafeCount (st : AppState) : Nat :=
  (st.history.filter (fun e => !e.is_safe)).length

/-- The is-safe verdict the session records for a response: the
service-supplied `is_safe` when present, else `risk < 20`. -/
def respVerdict (d : RespData) : Bool :=
  d.is_safe.getD (decide (respRisk d < 20))

/-! ## Helper lemmas -/

lemma analyze_guard (st : AppState) (now : String) (o : FetchOutcome)
    (h : jsTrim st.input = "") : analyze st now o = st := by
  unfold analyze analyzeRun
  rw [if_pos h]

lemma analyzeRun_guard (st : AppState) (now : String) (o : FetchOutcome)
    (h : jsTrim st.input = "") : analyzeRun st now o = ⟨st, false⟩ := by
  unfold analyzeRun
  rw [if_pos h]

lemma analyze_input (st : AppState) (now : String) (o : FetchOutcome) :
    (analyze st now o).input = st.input := by
  unfold analyze analyzeRun
  split
  · rfl
  · cases o <;> rfl

lemma analyze_ok_def (st : AppState) (now : String) (d : RespData)
    (h : ¬ jsTrim st.input = "") :
    analyze st now (.ok d) =
      { st with
          isAnalyzing := false,
          error := none,
          latestResult := some d,
          totalAnalyses := st.totalAnalyses + 1,
          threatsDetected := st.threatsDetected +
            (match d.threats with
             | some ts => ts.length
             | none => d.threats_detected.getD 0),
          avgRiskScore :=
            if st.totalAnalyses = 0 then respRisk d
            else (st.avgRiskScore * st.totalAnalyses + respRisk d) / (st.totalAnalyses + 1),
          history := (mkEntry st now d :: st.history).take 5 } := by
  unfold analyze analyzeRun
  rw [if_neg h]
  rfl

lemma analyze_ok_total (st : AppState) (now : String) (d : RespData)
    (h : ¬ jsTrim st.input = "") :
    (analyze st now (.ok d)).totalAnalyses = st.totalAnalyses + 1 := by
  rw [analyze_ok_def st now d h]

lemma analyze_ok_avg (st : AppState) (now : String) (d : RespData)
    (h : ¬ jsTrim st.input = "") :
    (analyze st now (.ok d)).avgRiskScore =
      if st.totalAnalyses = 0 then respRisk d
      else (st.avgRiskScore * st.totalAnalyses + respRisk d) / (st.totalAnalyses + 1) := by
  rw [analyze_ok_def st now d h]

lemma analyze_ok_history (st : AppState) (now : String) (d : RespData)
    (h : ¬ jsTrim st.input = "") :
    (analyze st now (.ok d)).history = (mkEntry st now d :: st.history).take 5 := by
  rw [analyze_ok_def st now d h]

lemma analyze_fail_core (st : AppState) (now : String) (o : FetchOutcome)
    (h : o.isFailure = true) :
    (analyze st now o).totalAnalyses = st.totalAnalyses ∧
    (analyze st now o).history = st.history ∧
    (analyze st now o).avgRiskScore = st.avgRiskScore ∧
    (analyze st now o).threatsDetected = st.threatsDetected ∧
    (st.latestResult = none → (analyze st now o).latestResult = none) := by
  unfold analyze analyzeRun
  split
  · exact ⟨rfl, rfl, rfl, rfl, fun hl => hl⟩
  · cases o with
    | ok d => simp [FetchOutcome.isFailure] at h
    | netErr msg => exact ⟨rfl, rfl, rfl, rfl, fun hl => hl⟩
    | httpErr status => exact ⟨rfl, rfl, rfl, rfl, fun hl => hl⟩
    | parseErr msg => exact ⟨rfl, rfl, rfl, rfl, fun hl => hl⟩
    | okNull => exact ⟨rfl, rfl, rfl, rfl, fun _ => rfl⟩

lemma runOk_nil (st : AppState) (now : String) : runOk st now [] = st := rfl

lemma runOk_cons (st : AppState) (now : String) (d : RespData) (ds : List RespData) :
    runOk st now (d :: ds) = runOk (analyze st now (.ok d)) now ds := rfl

lemma runOk_input (ds : List RespData) (st : AppState) (now : String) :
    (runOk st now ds).input = st.input := by
  induction ds generalizing st with
  | nil => rfl
  | cons d ds ih => rw [runOk_cons, ih, analyze_input]

lemma runOk_total (ds : List RespData) (st : AppState) (now : String)
    (h : ¬ jsTrim st.input = "") :
    (runOk st now ds).totalAnalyses = st.totalAnalyses + ds.length := by
  induction ds generalizing st with
  | nil => rfl
  | cons d ds ih =>
      rw [runOk_cons, ih _ (by rw [analyze_input]; exact h),
        analyze_ok_total st now d h, List.length_cons]
      omega

lemma runOk_avg_mul (ds : List RespData) (st : AppState) (now : String)
    (h : ¬ jsTrim st.input = "") :
    (runOk st now ds).avgRiskScore * ((st.totalAnalyses : ℚ) + ds.length)
      = st.avgRiskScore * st.totalAnalyses + (ds.map respRisk).sum := by
  induction ds generalizing st with
  | nil =>
      rw [runOk_nil, List.map_nil, List.sum_nil, List.length_nil]
      push_cast
      ring
  | cons d ds ih =>
      have h2 : ¬ jsTrim (analyze st now (.ok d)).input = "" := by
        rw [analyze_input]; exact h
      have ihst := ih (analyze st now (.ok d)) h2
      rw [analyze_ok_total st now d h, analyze_ok_avg st now d h] at ihst
      rw [runOk_cons]
      simp only [List.length_cons, List.map_cons, List.sum_cons]
      by_cases h0 : st.totalAnalyses = 0
      · rw [if_pos h0] at ihst
        rw [h0] at ihst ⊢
        push_cast at ihst ⊢
        linear_combination ihst
      · rw [if_neg h0] at ihst
        have hne : ((st.totalAnalyses : ℚ) + 1) ≠ 0 := by positivity
        push_cast at ihst ⊢
        rw [div_mul_cancel₀ _ hne] at ihst
        linear_combination ihst

lemma take_append_take {α : Type} (n : Nat) (l x : List α) :
    (l ++ x.take n).take n = (l ++ x).take n := by
  rw [List.take_append_eq_append_take, List.take_append_eq_append_take, List.take_take,
    Nat.min_eq_left (Nat.sub_le n l.length)]

lemma runOk_history_risks (ds : List RespData) (st : AppState) (now : String)
    (h : ¬ jsTrim st.input = "") (hlen : st.history.length ≤ 5) :
    (runOk st now ds).history.map (fun e => e.risk_score)
      = ((ds.map respRisk).reverse ++ st.history.map (fun e => e.risk_score)).take 5 := by
  induction ds generalizing st with
  | nil =>
      rw [runOk_nil, List.map_nil, List.reverse_nil, List.nil_append,
        List.take_of_length_le (by simpa using hlen)]
  | cons d ds ih =>
      have h2 : ¬ jsTrim (analyze st now (.ok d)).input = "" := by
        rw [analyze_input]; exact h
      have hlen2 : (analyze st now (.ok d)).history.length ≤ 5 := by
        rw [analyze_ok_history st now d h, List.length_take]
        exact Nat.min_le_left 5 _
      rw [runOk_cons, ih _ h2 hlen2, analyze_ok_history st now d h,
        List.map_take, take_append_take]
      simp [mkEntry, respRisk, List.append_assoc]

lemma runOk_history_len (ds : List RespData) (st : AppState) (now : String)
    (h : ¬ jsTrim st.input = "") (hlen : st.history.length ≤ 5) :
    (runOk st now ds).history.length
      = min 5 (ds.length + st.history.length) := by
  have hm := congrArg List.length (runOk_history_risks ds st now h hlen)
  simpa [Nat.add_comm] using hm

lemma filter_partition_len (l : List HistEntry) :
    (l.filter (fun e => e.is_safe)).length + (l.filter (fun e => !e.is_safe)).length
      = l.length := by
  induction l with
  | nil => rfl
  | cons e l ih =>
      cases he : e.is_safe <;> simp [List.filter_cons, he] <;> omega

lemma foldl_push000 (ds : List AnalysisResult000) :
    ∀ acc : List AnalysisResult000, acc.length ≤ 5 →
      ds.foldl pushHistory000 acc = (ds.reverse ++ acc).take 5 := by
  induction ds with
  | nil =>
      intro acc hacc
      simp [List.take_of_length_le hacc]
  | cons d ds ih =>
      intro acc hacc
      have hlen : (pushHistory000 acc d).length ≤ 5 := by
        unfold pushHistory000
        rw [List.length_take]
        exact Nat.min_le_left 5 _
      rw [List.foldl_cons, ih _ hlen]
      unfold pushHistory000
      rw [take_append_take, List.reverse_cons, List.append_assoc,
        List.singleton_append]

/-! ## Claim theorems -/

/-- C1: after any nonempty sequence of N successful submissions, the session
running average `avgRiskScore` equals the arithmetic mean of the N risk
scores; moreover each update of the average reads only the previous mean,
the previous count and the new risk score — states that agree on those
(with any histories) produce the same new average, so the history is never
re-summed. -/
theorem c1_avgRiskScore_is_running_mean (ds : List RespData) (now : String)
    (h : ds ≠ []) :
    (runOk st0 now ds).avgRiskScore = (ds.map respRisk).sum / (ds.length : ℚ) ∧
    ∀ s₁ s₂ : AppState, ∀ d : RespData,
      s₁.input = s₂.input → s₁.avgRiskScore = s₂.avgRiskScore →
      s₁.totalAnalyses = s₂.totalAnalyses →
      (analyze s₁ now (.ok d)).avgRiskScore = (analyze s₂ now (.ok d)).avgRiskScore := by
  constructor
  · have hin : ¬ jsTrim st0.input = "" := by decide
    have hmul := runOk_avg_mul ds st0 now hin
    have hT : st0.totalAnalyses = 0 := rfl
    have hA : st0.avgRiskScore = 0 := rfl
    rw [hT, hA] at hmul
    push_cast at hmul
    have hlen : ((ds.length : ℚ)) ≠ 0 :=
      Nat.cast_ne_zero.mpr (Nat.pos_iff_ne_zero.mp (List.length_pos.mpr h))
    rw [eq_div_iff hlen]
    linear_combination hmul
  · intro s₁ s₂ d hin hav htot
    by_cases hg : jsTrim s₁.input = ""
    · rw [analyze_guard s₁ now _ hg, analyze_guard s₂ now _ (by rw [← hin]; exact hg),
        hav]
    · rw [analyze_ok_avg s₁ now d hg, analyze_ok_avg s₂ now d (by rw [← hin]; exact hg),
        hav, htot]

/-- C1 witness: two submissions with risk scores 10 and 30 give a running
average equal to their arithmetic mean. -/
theorem c1_avgRiskScore_is_running_mean_witness :
    (runOk st0 "t" [mkResp 10, mkResp 30]).avgRiskScore
      = (([mkResp 10, mkResp 30] : List RespData).map respRisk).sum
        / (([mkResp 10, mkResp 30] : List RespData).length : ℚ) :=
  (c1_avgRiskScore_is_running_mean [mkResp 10, mkResp 30] "t"
    (List.cons_ne_nil _ _)).1

/-- C2: a failed call to `analyze` (network error, non-2xx status, JSON parse
failure, or a `null` body) leaves `totalAnalyses`, the history contents,
`avgRiskScore` and `threatsDetected` exactly at their pre-call values. -/
theorem c2_failure_leaves_state_unchanged (st : AppState) (now : String)
    (o : FetchOutcome) (h : o.isFailure = true) :
    (analyze st now o).totalAnalyses = st.totalAnalyses ∧
    (analyze st now o).history = st.history ∧
    (analyze st now o).avgRiskScore = st.avgRiskScore ∧
    (analyze st now o).threatsDetected = st.threatsDetected := by
  have hc := analyze_fail_core st now o h
  exact ⟨hc.1, hc.2.1, hc.2.2.1, hc.2.2.2.1⟩

/-- C2 witness: a concrete network failure on a fresh session with text
typed in changes none of the aggregate fields. -/
theorem c2_failure_leaves_state_unchanged_witness :
    (analyze st0 "t" (.netErr "boom")).totalAnalyses = st0.totalAnalyses ∧
    (analyze st0 "t" (.netErr "boom")).history = st0.history ∧
    (analyze st0 "t" (.netErr "boom")).avgRiskScore = st0.avgRiskScore ∧
    (analyze st0 "t" (.netErr "boom")).threatsDetected = st0.threatsDetected :=
  c2_failure_leaves_state_unchanged st0 "t" (.netErr "boom") rfl

/-- C3: after any k successful submissions the history holds exactly
min(k, 5) rows, newest first (its risk column is the reverse of the
submission order, truncated to 5, so the oldest rows are silently evicted);
the part_000 variant with whole-envelope rows satisfies the same law. -/
theorem c3_history_bounded_newest_first (ds : List RespData) (now : String) :
    (runOk st0 now ds).history.length = min ds.length 5 ∧
    (runOk st0 now ds).history.map (fun e => e.risk_score)
      = (ds.map respRisk).reverse.take 5 ∧
    ∀ ds000 : List AnalysisResult000, runHistory000 ds000 = ds000.reverse.take 5 := by
  have hin : ¬ jsTrim st0.input = "" := by decide
  have hh : st0.history.length ≤ 5 := by decide
  have hrisk := runOk_history_risks ds st0 now hin hh
  have hempty : st0.history.map (fun e => e.risk_score) = [] := rfl
  rw [hempty, List.append_nil] at hrisk
  refine ⟨?_, hrisk, ?_⟩
  · have hl := runOk_history_len ds st0 now hin hh
    have : st0.history.length = 0 := rfl
    rw [this] at hl
    omega
  · intro ds000
    have := foldl_push000 ds000 [] (by simp)
    simpa [runHistory000] using this

/-- Six responses of risk 10 whose first result carries the service verdict
`is_safe: false`. -/
def dsUnsafeFirst : List RespData :=
  [{ mkResp 10 with is_safe := some false }, mkResp 10, mkResp 10,
   mkResp 10, mkResp 10, mkResp 10]

/-- Six responses of risk 10 whose first result carries the service verdict
`is_safe: true`. -/
def dsSafeFirst : List RespData :=
  [{ mkResp 10 with is_safe := some true }, mkResp 10, mkResp 10,
   mkResp 10, mkResp 10, mkResp 10]

/-- C4 counterexample: two six-submission sessions whose results differ in
one safe verdict produce identical session states, so no function of the
session state returns the number of safe results seen — the state maintains
no safeCount/unsafeCount partition of totalCount. -/
theorem c4_no_safe_counter_cex :
    ¬ ∃ f : AppState → Nat, ∀ ds : List RespData,
        f (runOk st0 "t" ds) = (ds.filter (fun d => respVerdict d)).length := by
  rintro ⟨f, hf⟩
  have h1 := hf dsUnsafeFirst
  have h2 := hf dsSafeFirst
  have heq : runOk st0 "t" dsUnsafeFirst = runOk st0 "t" dsSafeFirst := by rfl
  rw [heq, h2] at h1
  exact absurd h1 (by decide)

/-- C4 (amended): the session keeps no safe/unsafe counters; the only
verdict-partitioned state is the bounded history, whose safe/unsafe split
sums to the retained length min(k, 5) — not to `totalAnalyses`, which counts
all k submissions. -/
theorem c4_history_partition_amended (ds : List RespData) (now : String) :
    historySafeCount (runOk st0 now ds) + historyUnsafeCount (runOk st0 now ds)
      = min ds.length 5 ∧
    (runOk st0 now ds).totalAnalyses = ds.length := by
  have hin : ¬ jsTrim st0.input = "" := by decide
  have hh : st0.history.length ≤ 5 := by decide
  constructor
  · have hp := filter_partition_len (runOk st0 now ds).history
    have hl := runOk_history_len ds st0 now hin hh
    have h0 : st0.history.length = 0 := rfl
    rw [h0] at hl
    unfold historySafeCount historyUnsafeCount
    omega
  · have ht := runOk_total ds st0 now hin
    have h0 : st0.totalAnalyses = 0 := rfl
    omega

/-- C5 counterexample: `getRiskBadge` in src/src/App.tsx does not follow the
claimed three-category 20/60 classification — at score 20 it reports
LOW RISK (not MEDIUM), and it has a fourth CRITICAL category at 85. -/
theorem c5_riskBadge_four_categories_cex :
    (getRiskBadge 20).label = "LOW RISK" ∧
    (getRiskBadge 85).label = "CRITICAL RISK" := by
  constructor <;> decide

/-- C5 (amended): part_001 `getSafetyLevel` classifies into exactly LOW,
MEDIUM and HIGH with thresholds 20 and 60 as claimed, while App.tsx
`getRiskBadge` uses four categories with thresholds 30, 60 and 80. -/
theorem c5_risk_thresholds_amended (s : ℚ) :
    (s < 20 → getSafetyLevel s = .LOW) ∧
    (20 ≤ s → s < 60 → getSafetyLevel s = .MEDIUM) ∧
    (60 ≤ s → getSafetyLevel s = .HIGH) ∧
    (s < 30 → (getRiskBadge s).label = "LOW RISK") ∧
    (30 ≤ s → s < 60 → (getRiskBadge s).label = "MEDIUM RISK") ∧
    (60 ≤ s → s < 80 → (getRiskBadge s).label = "HIGH RISK") ∧
    (80 ≤ s → (getRiskBadge s).label = "CRITICAL RISK") := by
  unfold getSafetyLevel getRiskBadge
  refine ⟨?_, ?_, ?_, ?_, ?_, ?_, ?_⟩ <;> intros <;> split_ifs <;>
    first | rfl | linarith

/-- C5 amended witness: the boundary scores 19.9, 20, 59.9 and 60 classify
as LOW, MEDIUM, MEDIUM and HIGH in `getSafetyLevel`, while `getRiskBadge`
reports LOW RISK at 20 and CRITICAL RISK at 85. -/
theorem c5_risk_thresholds_amended_witness :
    getSafetyLevel (199 / 10) = .LOW ∧ getSafetyLevel 20 = .MEDIUM ∧
    getSafetyLevel (599 / 10) = .MEDIUM ∧ getSafetyLevel 60 = .HIGH ∧
    (getRiskBadge 20).label = "LOW RISK" ∧
    (getRiskBadge 85).label = "CRITICAL RISK" := by
  refine ⟨(c5_risk_thresholds_amended (199 / 10)).1 (by norm_num),
    (c5_risk_thresholds_amended 20).2.1 (by norm_num) (by norm_num),
    (c5_risk_thresholds_amended (599 / 10)).2.1 (by norm_num) (by norm_num),
    (c5_risk_thresholds_amended 60).2.2.1 (by norm_num),
    (c5_risk_thresholds_amended 20).2.2.2.1 (by norm_num),
    (c5_risk_thresholds_amended 85).2.2.2.2.2.2 (by norm_num)⟩

/-- A fresh App.tsx session with whitespace-only text typed in. -/
def wsTsx : TsxState :=
  { inputText := "   ", analyzing := false, result := none,
    stats := initialTsxStats, history := [] }

/-- A fresh part_001 session with whitespace-only text typed in. -/
def wsApp : AppState := { initialState with input := "   " }

/-- C6 counterexample: on whitespace-only input the App.tsx `analyzeText`
guard produces a user-visible alert dialog, so the submission is not a
silent no-op. -/
theorem c6_whitespace_alert_cex :
    (analyzeText wsTsx (.err none)).2
      = [UiEffect.alert "Please enter some text to analyze"] := by decide

/-- C6 (amended): on input that trims to empty, neither variant issues a
network request or changes any session state; part_001 returns silently,
while App.tsx additionally shows an alert dialog. -/
theorem c6_whitespace_no_request_amended (st : AppState) (tst : TsxState)
    (now : String) (o : FetchOutcome) (o2 : TsxOutcome)
    (h1 : jsTrim st.input = "") (h2 : jsTrim tst.inputText = "") :
    analyzeRun st now o = ⟨st, false⟩ ∧
    analyzeText tst o2
      = (tst, [UiEffect.alert "Please enter some text to analyze"]) := by
  constructor
  · exact analyzeRun_guard st now o h1
  · unfold analyzeText
    rw [if_pos h2]

/-- C6 amended witness: concrete whitespace-only sessions — part_001 is a
silent no-op with no request, App.tsx keeps its state and alerts. -/
theorem c6_whitespace_no_request_amended_witness :
    analyzeRun wsApp "t" (.ok (mkResp 10)) = ⟨wsApp, false⟩ ∧
    analyzeText wsTsx (.err none)
      = (wsTsx, [UiEffect.alert "Please enter some text to analyze"]) :=
  c6_whitespace_no_request_amended wsApp wsTsx "t" (.ok (mkResp 10)) (.err none)
    rfl rfl

/-- A part_001 session with a request in flight. -/
def busyState : AppState := { st0 with isAnalyzing := true }

/-- C7: while a request is in flight (`isAnalyzing = true`) the analyze
button is disabled, so a click dispatches nothing: no second outbound
request is issued and no result is folded — the state is unchanged. -/
theorem c7_busy_click_rejected (st : AppState) (now : String) (o : FetchOutcome)
    (h : st.isAnalyzing = true) :
    clickAnalyze st now o = ⟨st, false⟩ := by
  unfold clickAnalyze analyzeButtonDisabled
  rw [h]
  simp

/-- C7 witness: a click during a concrete in-flight session issues no
request and leaves the state unchanged. -/
theorem c7_busy_click_rejected_witness :
    clickAnalyze busyState "t" (.ok (mkResp 10)) = ⟨busyState, false⟩ :=
  c7_busy_click_rejected busyState "t" (.ok (mkResp 10)) rfl

/-- C8: before any result has been folded — at session start and after any
run of failed submissions — the aggregate reads are the sentinels: the
counters and the average read 0, the safe percentage reads 100 (hence
unsafe 0), and no read divides by anything; the App.tsx initial stats carry
the same sentinels. -/
theorem c8_zero_state_sentinels (input now : String) (os : List FetchOutcome)
    (h : ∀ o ∈ os, o.isFailure = true) :
    (runOutcomes { initialState with input := input } now os).totalAnalyses = 0 ∧
    (runOutcomes { initialState with input := input } now os).threatsDetected = 0 ∧
    (runOutcomes { initialState with input := input } now os).avgRiskScore = 0 ∧
    safePct (runOutcomes { initialState with input := input } now os) = 100 ∧
    unsafePct (runOutcomes { initialState with input := input } now os) = 0 ∧
    displayedRiskScore (runOutcomes { initialState with input := input } now os) = 0 ∧
    initialTsxStats.total_analyses = 0 ∧
    initialTsxStats.threats_detected = 0 ∧
    initialTsxStats.average_risk_score = 0 ∧
    initialTsxStats.safe_percentage = 100 := by
  have key : ∀ os : List FetchOutcome, ∀ st : AppState,
      (∀ o ∈ os, o.isFailure = true) →
      st.totalAnalyses = 0 → st.threatsDetected = 0 → st.avgRiskScore = 0 →
      st.latestResult = none →
      (runOutcomes st now os).totalAnalyses = 0 ∧
      (runOutcomes st now os).threatsDetected = 0 ∧
      (runOutcomes st now os).avgRiskScore = 0 ∧
      (runOutcomes st now os).latestResult = none := by
    intro os
    induction os with
    | nil => intro st _ h1 h2 h3 h4; exact ⟨h1, h2, h3, h4⟩
    | cons o os ih =>
        intro st hall h1 h2 h3 h4
        have ho : o.isFailure = true := hall o (List.mem_cons_self o os)
        have hc := analyze_fail_core st now o ho
        exact ih (analyze st now o) (fun x hx => hall x (List.mem_cons_of_mem o hx))
          (hc.1.trans h1) (hc.2.2.2.1.trans h2) (hc.2.2.1.trans h3) (hc.2.2.2.2 h4)
  have hk := key os { initialState with input := input } h rfl rfl rfl rfl
  refine ⟨hk.1, hk.2.1, hk.2.2.1, ?_, ?_, ?_, rfl, rfl, rfl, rfl⟩
  · unfold safePct
    rw [hk.2.2.2]
  · unfold unsafePct safePct
    rw [hk.2.2.2]
    norm_num
  · unfold displayedRiskScore
    rw [hk.2.2.2]

/-- C8 witness: a fresh session that suffers one network failure still reads
all sentinels. -/
theorem c8_zero_state_sentinels_witness :
    (runOutcomes { initialState with input := "hi" } "t" [.netErr "x"]).totalAnalyses = 0 ∧
    (runOutcomes { initialState with input := "hi" } "t" [.netErr "x"]).threatsDetected = 0 ∧
    (runOutcomes { initialState with input := "hi" } "t" [.netErr "x"]).avgRiskScore = 0 ∧
    safePct (runOutcomes { initialState with input := "hi" } "t" [.netErr "x"]) = 100 ∧
    unsafePct (runOutcomes { initialState with input := "hi" } "t" [.netErr "x"]) = 0 ∧
    displayedRiskScore (runOutcomes { initialState with input := "hi" } "t" [.netErr "x"]) = 0 ∧
    initialTsxStats.total_analyses = 0 ∧
    initialTsxStats.threats_detected = 0 ∧
    initialTsxStats.average_risk_score = 0 ∧
    initialTsxStats.safe_percentage = 100 :=
  c8_zero_state_sentinels "hi" "t" [.netErr "x"] (by decide)

/-- C9: seven successful submissions whose responses omit `id` leave the
history with two rows both identified as SA-000006 — the synthesized id is
built from the capped history length (`prev.length + 1`, stuck at 6), so
ids are not unique across the session, and the duplicate even survives
inside the retained history. -/
theorem c9_synthesized_id_collision :
    ((runOk st0 "t" (List.replicate 7 (mkResp 10))).history.map (fun e => e.id))
      = ["SA-000006", "SA-000006", "SA-000005", "SA-000004", "SA-000003"] := by
  decide

/-- C10: when a successful response omits `is_safe`, the history row built
for it is the head of the new history and its verdict is
`risk_score < 20` (with the risk itself defaulted to 0 when absent). -/
theorem c10_missing_verdict_defaults_to_low_threshold
    (st : AppState) (now : String) (d : RespData)
    (h1 : ¬ jsTrim st.input = "") (h2 : d.is_safe = none) :
    (analyze st now (.ok d)).history.head? = some (mkEntry st now d) ∧
    (mkEntry st now d).is_safe = decide (respRisk d < 20) := by
  constructor
  · rw [analyze_ok_history st now d h1]
    rfl
  · show (d.is_safe.getD (decide (respRisk d < 20))) = decide (respRisk d < 20)
    rw [h2, Option.getD_none]

/-- C10 witness: a concrete response with risk 50 and no verdict yields a
head history row whose verdict is `decide (50 < 20) = false`. -/
theorem c10_missing_verdict_defaults_witness :
    (analyze st0 "t" (.ok (mkResp 50))).history.head?
      = some (mkEntry st0 "t" (mkResp 50)) ∧
    (mkEntry st0 "t" (mkResp 50)).is_safe = decide (respRisk (mkResp 50) < 20) :=
  c10_missing_verdict_defaults_to_low_threshold st0 "t" (mkResp 50)
    (by decide) rfl

end SafeAI
